import Mathlib

/-!
Verification of the DocPilot frontend core and its spec-level protocol
properties: the SSE job-progress subscriber (`use-sse.ts`), the contract
diff view helpers (`contract-diff-view.tsx`), the compare-page document
selector (`compare/page.tsx`), the API client (`api-client.ts`), and the
spec-described comparison engine and pipeline progress protocol.
-/

namespace DocPilot

/-! ## SSE subscriber (`apps/web/src/hooks/use-sse.ts`) -/

/-- The derived status values of `JobProgress.status` (`types/extraction.ts`). -/
inductive JobStatus
  | processing
  | completed
  | failed
deriving DecidableEq, Repr

/-- Payload `JobProgress` from `types/extraction.ts`: step, total_steps,
message, progress, and the optional status derived by the subscriber. -/
structure JobProgress where
  step : Nat
  total_steps : Nat
  message : String
  progress : Int
  status : Option JobStatus := none
deriving DecidableEq, Repr

/-- Status derivation in `useJobProgress.onmessage`: 100 means completed,
-1 means failed, everything else is processing. -/
def deriveStatus (p : Int) : JobStatus :=
  if p = 100 then JobStatus.completed
  else if p = -1 then JobStatus.failed
  else JobStatus.processing

/-- The subscriber's state: the last stored progress payload and whether
the EventSource connection is still open (`isConnected`). -/
structure SubscriberState where
  progress : Option JobProgress
  isConnected : Bool
deriving DecidableEq, Repr

/-- One `onmessage` delivery. A message is the parse outcome of the SSE
data: `some data` for a JSON `JobProgress` payload, `none` when parsing
failed (heartbeat comments are ignored by the catch block). A closed
source delivers nothing, so the state is unchanged when disconnected.
On a payload the subscriber stores the payload with its derived status
and closes the connection exactly on progress 100 or -1. -/
def sseStep (s : SubscriberState) (m : Option JobProgress) : SubscriberState :=
  if s.isConnected = false then s
  else
    match m with
    | none => s
    | some data =>
      let stored : JobProgress := { data with status := some (deriveStatus data.progress) }
      if data.progress = 100 ∨ data.progress = -1 then
        { progress := some stored, isConnected := false }
      else
        { progress := some stored, isConnected := true }

/-- Run the subscriber over a whole sequence of received messages. -/
def runSSE (s : SubscriberState) (ms : List (Option JobProgress)) : SubscriberState :=
  ms.foldl sseStep s

end DocPilot

namespace DocPilot

/-- C1: the status derived by the SSE subscriber is `completed` iff
progress = 100, `failed` iff progress = -1, and `processing` for every
other progress value. -/
theorem derived_status_characterisation (p : Int) :
    (deriveStatus p = JobStatus.completed ↔ p = 100) ∧
    (deriveStatus p = JobStatus.failed ↔ p = -1) ∧
    (p ≠ 100 ∧ p ≠ -1 → deriveStatus p = JobStatus.processing) := by
  unfold deriveStatus
  split_ifs with h1 h2 <;>
    refine ⟨⟨fun h => ?_, fun h => ?_⟩, ⟨fun h => ?_, fun h => ?_⟩, fun h => ?_⟩ <;>
    simp_all

/-- Witness for C1 at a concrete non-terminal progress value. -/
theorem derived_status_characterisation_witness :
    (50 : Int) ≠ 100 ∧ (50 : Int) ≠ -1 ∧ deriveStatus 50 = JobStatus.processing :=
  ⟨by decide, by decide,
    (derived_status_characterisation 50).2.2 ⟨by decide, by decide⟩⟩

/-- Once the subscriber is disconnected, no message changes its state. -/
theorem runSSE_closed (s : SubscriberState) (ms : List (Option JobProgress))
    (h : s.isConnected = false) : runSSE s ms = s := by
  induction ms with
  | nil => rfl
  | cons m rest ih =>
    have hstep : sseStep s m = s := by
      unfold sseStep
      simp [h]
    simp only [runSSE, List.foldl_cons] at *
    rw [hstep, ih]

/-- C2: while the connection is open, a delivered payload closes the
EventSource exactly when its progress is 100 or -1; once closed, no
further messages update the progress state. -/
theorem terminal_event_closes_stream (s : SubscriberState) :
    (∀ e : JobProgress, s.isConnected = true →
      ((sseStep s (some e)).isConnected = false ↔ (e.progress = 100 ∨ e.progress = -1))) ∧
    (∀ ms : List (Option JobProgress), s.isConnected = false → runSSE s ms = s) := by
  constructor
  · intro e hopen
    unfold sseStep
    simp only [hopen]
    by_cases hterm : e.progress = 100 ∨ e.progress = -1 <;> simp [hterm]
  · intro ms hclosed
    exact runSSE_closed s ms hclosed

/-- Witness for C2 at a concrete open state and terminal event. -/
theorem terminal_event_closes_stream_witness :
    ((sseStep ⟨none, true⟩ (some ⟨3, 3, "done", 100, none⟩)).isConnected = false ↔
      ((100 : Int) = 100 ∨ (100 : Int) = -1)) ∧
    runSSE ⟨none, false⟩ [some ⟨1, 3, "x", 50, none⟩] = ⟨none, false⟩ :=
  ⟨(terminal_event_closes_stream ⟨none, true⟩).1 ⟨3, 3, "done", 100, none⟩ rfl,
    (terminal_event_closes_stream ⟨none, false⟩).2 [some ⟨1, 3, "x", 50, none⟩] rfl⟩

/-- C8: an SSE message whose data is not parseable as a `JobProgress`
payload (a heartbeat) leaves the subscriber's progress and connection
state unchanged and does not close the stream. -/
theorem heartbeat_is_noop (s : SubscriberState) : sseStep s none = s := by
  unfold sseStep
  by_cases h : s.isConnected = false <;> simp [h]

end DocPilot

namespace DocPilot

/-! ## Contract diff view (`apps/web/src/components/contract-diff-view.tsx`)
and its types (`types/comparison.ts`). -/

/-- The four statuses of a `FieldDiffEntry` (`types/comparison.ts`). -/
inductive DiffStatus
  | match_
  | different
  | only_in_a
  | only_in_b
deriving DecidableEq, Repr

/-- Structure `FieldDiffEntry` from `types/comparison.ts`: a status plus the
optional `value`, `doc_a` and `doc_b` payload fields. -/
structure FieldDiffEntry where
  status : DiffStatus
  value : Option String := none
  doc_a : Option String := none
  doc_b : Option String := none
deriving DecidableEq, Repr

/-- Function `getDisplayValues` from `contract-diff-view.tsx`: the pair of values
shown in the A and B columns for one field diff entry. -/
def getDisplayValues (entry : FieldDiffEntry) : Option String × Option String :=
  match entry.status with
  | DiffStatus.match_ => (entry.value, entry.value)
  | DiffStatus.different => (entry.doc_a, entry.doc_b)
  | DiffStatus.only_in_a => (entry.doc_a, none)
  | DiffStatus.only_in_b => (none, entry.doc_b)

/-- C3: `getDisplayValues` shows (value, value) for a match, (doc_a,
doc_b) for different, (doc_a, null) for only_in_a and (null, doc_b) for
only_in_b, and is total over the four statuses. -/
theorem display_values_by_status (entry : FieldDiffEntry) :
    (entry.status = DiffStatus.match_ →
      getDisplayValues entry = (entry.value, entry.value)) ∧
    (entry.status = DiffStatus.different →
      getDisplayValues entry = (entry.doc_a, entry.doc_b)) ∧
    (entry.status = DiffStatus.only_in_a →
      getDisplayValues entry = (entry.doc_a, none)) ∧
    (entry.status = DiffStatus.only_in_b →
      getDisplayValues entry = (none, entry.doc_b)) := by
  obtain ⟨st, v, a, b⟩ := entry
  cases st <;> refine ⟨fun h => ?_, fun h => ?_, fun h => ?_, fun h => ?_⟩ <;>
    simp_all [getDisplayValues]

/-- Witness for C3 at a concrete `match` entry. -/
theorem display_values_by_status_witness :
    getDisplayValues ⟨DiffStatus.match_, some "Acme Inc", none, none⟩ =
      (some "Acme Inc", some "Acme Inc") :=
  (display_values_by_status ⟨DiffStatus.match_, some "Acme Inc", none, none⟩).1 rfl

/-- The denominator used by `SummaryBar` in `contract-diff-view.tsx`:
`summary.total_fields || 1`, i.e. 1 when the count is 0. -/
def summaryBarTotal (total_fields : Nat) : Nat :=
  if total_fields = 0 then 1 else total_fields

/-- The width percentage of one status segment of the summary bar:
`(item.count / total) * 100`. -/
def segmentWidth (count total_fields : Nat) : ℚ :=
  ((count : ℚ) / (summaryBarTotal total_fields : ℚ)) * 100

/-- C10: the summary-bar denominator is `max total_fields 1`, so it is
positive for every summary (including `total_fields = 0`) and the width
computation never divides by zero. -/
theorem summary_bar_total_never_zero (total_fields : Nat) :
    summaryBarTotal total_fields = max total_fields 1 ∧
    0 < summaryBarTotal total_fields ∧
    ((summaryBarTotal total_fields : ℚ) ≠ 0 ∧
      ∀ count : Nat, segmentWidth count total_fields =
        (count : ℚ) / (max total_fields 1 : Nat) * 100) := by
  have hmax : summaryBarTotal total_fields = max total_fields 1 := by
    unfold summaryBarTotal
    rcases Nat.eq_zero_or_pos total_fields with h | h
    · simp [h]
    · have hne : total_fields ≠ 0 := Nat.pos_iff_ne_zero.mp h
      have h1 : 1 ≤ total_fields := h
      simp [hne, Nat.max_eq_left h1]
  have hpos : 0 < summaryBarTotal total_fields := by
    rw [hmax]; omega
  have hcast : (summaryBarTotal total_fields : ℚ) ≠ 0 :=
    Nat.cast_ne_zero.mpr (Nat.pos_iff_ne_zero.mp hpos)
  refine ⟨hmax, hpos, hcast, fun count => ?_⟩
  unfold segmentWidth
  rw [hmax]

end DocPilot

namespace DocPilot

/-! ## Compare page document selector
(`apps/web/src/app/(dashboard)/compare/page.tsx`). -/

/-- Document status values from `types/document.ts`. -/
inductive DocStatus
  | uploaded
  | processing
  | completed
  | failed
deriving DecidableEq, Repr

/-- The fields of `Document` (`types/document.ts`) relevant to the
compare page. -/
structure Document where
  id : String
  filename : String
  file_size_bytes : Nat
  page_count : Option Nat
  doc_type : Option String
  status : DocStatus
  created_at : String
  updated_at : String
  uploaded_by : String
deriving DecidableEq, Repr

/-- The filter in `DocumentSelector`: only completed documents, minus
the one selected in the other selector
(`documents.filter((d) => d.status === "completed" && d.id !== excludeId)`). -/
def completedSelectable (documents : List Document) (excludeId : Option String) :
    List Document :=
  documents.filter (fun d =>
    decide (d.status = DocStatus.completed) && decide (some d.id ≠ excludeId))

/-- C4: every document offered for selection by the compare page's
`DocumentSelector` has status `completed` (and is not the document
chosen in the other selector), so a failed or still-processing document
is never offered to the comparison operation from this interface. -/
theorem selector_offers_only_completed (documents : List Document)
    (excludeId : Option String) (d : Document)
    (h : d ∈ completedSelectable documents excludeId) :
    d.status = DocStatus.completed ∧ some d.id ≠ excludeId := by
  unfold completedSelectable at h
  have h2 := List.of_mem_filter h
  simp only [Bool.and_eq_true, decide_eq_true_eq] at h2
  exact h2

/-- Witness for C4 on a concrete one-document list. -/
theorem selector_offers_only_completed_witness :
    (⟨"doc-1", "a.pdf", 10, none, some "nda", DocStatus.completed, "t0", "t1", "u"⟩ : Document) ∈
      completedSelectable
        [⟨"doc-1", "a.pdf", 10, none, some "nda", DocStatus.completed, "t0", "t1", "u"⟩] none ∧
    (⟨"doc-1", "a.pdf", 10, none, some "nda", DocStatus.completed, "t0", "t1", "u"⟩ : Document).status
      = DocStatus.completed :=
  ⟨by decide,
    (selector_offers_only_completed
      [⟨"doc-1", "a.pdf", 10, none, some "nda", DocStatus.completed, "t0", "t1", "u"⟩]
      none
      ⟨"doc-1", "a.pdf", 10, none, some "nda", DocStatus.completed, "t0", "t1", "u"⟩
      (by decide)).1⟩

end DocPilot

namespace DocPilot

/-! ## API client (`apps/web/src/lib/api-client.ts`)

The `request` wrapper is modelled over the observable shape of one HTTP
response: its status code, whether its content type is JSON, and the
parsed JSON body (the `{ data, error }` envelope, possibly nested under
`detail` for FastAPI HTTPException responses). Payloads are modelled as
optional strings. -/

/-- The `{ message, code }` error object of the response envelope, and
the payload of a thrown `ApiError`. -/
structure ApiErrorInfo where
  message : String
  code : String
deriving DecidableEq, Repr

/-- The `{ data, error }` response envelope (`types/api.ts`). -/
structure Envelope where
  data : Option String := none
  error : Option ApiErrorInfo := none
deriving DecidableEq, Repr

/-- A parsed JSON response body: the envelope fields, plus the optional
`detail` field FastAPI wraps HTTPException payloads in. -/
structure ResponseBody where
  data : Option String := none
  error : Option ApiErrorInfo := none
  detail : Option Envelope := none
deriving DecidableEq, Repr

/-- One HTTP response as `request` observes it. -/
structure Response where
  status : Nat
  statusText : String
  contentTypeJson : Bool
  body : ResponseBody
deriving DecidableEq, Repr

/-- Predicate `Response.ok` of the fetch API: status in the 200–299 range. -/
def resOk (status : Nat) : Bool :=
  decide (200 ≤ status) && decide (status < 300)

/-- Selection `body.detail ?? body`: the envelope used for a non-ok response. -/
def bodyEnvelope (b : ResponseBody) : Envelope :=
  b.detail.getD { data := b.data, error := b.error }

/-- The envelope-processing tail of `request` (after the 401-refresh
branch): a non-JSON content type throws SERVER_ERROR; a non-ok JSON
response throws the envelope's error (or the UNKNOWN fallback); an ok
response throws the envelope's error if non-null, else returns `data`. -/
def processResponse (res : Response) : Except ApiErrorInfo (Option String) :=
  if res.contentTypeJson = false then
    Except.error
      ⟨"Server error: " ++ toString res.status ++ " " ++ res.statusText, "SERVER_ERROR"⟩
  else if resOk res.status = false then
    match (bodyEnvelope res.body).error with
    | some e => Except.error ⟨e.message, e.code⟩
    | none => Except.error ⟨"Unknown error", "UNKNOWN"⟩
  else
    match res.body.error with
    | some e => Except.error ⟨e.message, e.code⟩
    | none => Except.ok res.body.data

/-- The outcome of one pass through `request` for one response: either a
final result (with a flag recording whether `clearTokens()` ran), or the
decision to refresh-and-retry. -/
inductive StepOutcome
  | done (result : Except ApiErrorInfo (Option String)) (tokensCleared : Bool)
  | retry
deriving Repr

/-- One pass of `request` on one response: a 401 on a non-retry call
either triggers the single retry (when the token refresh succeeds) or
clears the stored tokens and throws `ApiError("Session expired",
"AUTH_EXPIRED")`; every other response is processed by the envelope
logic of `processResponse`. -/
def requestStep (isRetry : Bool) (refreshOk : Bool) (res : Response) : StepOutcome :=
  if res.status = 401 ∧ isRetry = false then
    if refreshOk then StepOutcome.retry
    else StepOutcome.done (Except.error ⟨"Session expired", "AUTH_EXPIRED"⟩) true
  else
    StepOutcome.done (processResponse res) false

/-- The whole `request` call: the first response may trigger at most one
refresh-and-retry, whose response is processed with `_isRetry = true`.
The inner default branch is unreachable (`requestStep` with
`isRetry = true` never retries). -/
def request (refreshOk : Bool) (res1 res2 : Response) :
    Except ApiErrorInfo (Option String) × Bool :=
  match requestStep false refreshOk res1 with
  | StepOutcome.done r c => (r, c)
  | StepOutcome.retry =>
    match requestStep true refreshOk res2 with
    | StepOutcome.done r c => (r, c)
    | StepOutcome.retry => (Except.error ⟨"Unknown error", "UNKNOWN"⟩, false)

/-- C7: for every response processed by the envelope logic of `request`:
a JSON, ok response whose envelope error is null returns the envelope's
data; if the envelope error is non-null, the status is not ok, or the
body is not JSON, `request` throws an `ApiError` carrying the envelope
error's message and code or a SERVER_ERROR / UNKNOWN fallback — never
returning a value in an error case. -/
theorem request_envelope_unwrapping (res : Response) :
    (res.contentTypeJson = true → resOk res.status = true → res.body.error = none →
      processResponse res = Except.ok res.body.data) ∧
    ((res.body.error ≠ none ∨ resOk res.status = false ∨ res.contentTypeJson = false) →
      ∃ e : ApiErrorInfo, processResponse res = Except.error e ∧
        ((∃ err : ApiErrorInfo, e = ⟨err.message, err.code⟩ ∧
            (res.body.error = some err ∨ (bodyEnvelope res.body).error = some err)) ∨
          e.code = "SERVER_ERROR" ∨ e.code = "UNKNOWN")) := by
  constructor
  · intro hjson hok herr
    unfold processResponse
    simp [hjson, hok, herr]
  · intro hcase
    by_cases hjson : res.contentTypeJson = false
    · exact ⟨⟨"Server error: " ++ toString res.status ++ " " ++ res.statusText,
        "SERVER_ERROR"⟩,
        by unfold processResponse; simp [hjson], Or.inr (Or.inl rfl)⟩
    · by_cases hok : resOk res.status = false
      · cases henv : (bodyEnvelope res.body).error with
        | some err =>
          exact ⟨⟨err.message, err.code⟩,
            by unfold processResponse; simp [hjson, hok, henv],
            Or.inl ⟨err, rfl, Or.inr rfl⟩⟩
        | none =>
          exact ⟨⟨"Unknown error", "UNKNOWN"⟩,
            by unfold processResponse; simp [hjson, hok, henv],
            Or.inr (Or.inr rfl)⟩
      · cases herr : res.body.error with
        | some err =>
          exact ⟨⟨err.message, err.code⟩,
            by unfold processResponse; simp [hjson, hok, herr],
            Or.inl ⟨err, rfl, Or.inl rfl⟩⟩
        | none =>
          exfalso
          rcases hcase with h | h | h
          · exact h herr
          · exact hok h
          · exact hjson h

/-- Witness for C7 at a concrete ok response and a concrete error
response. -/
theorem request_envelope_unwrapping_witness :
    processResponse ⟨200, "OK", true, { data := some "payload" }⟩ =
      Except.ok (some "payload") ∧
    ∃ e : ApiErrorInfo,
      processResponse ⟨500, "Server Error", false, {}⟩ = Except.error e ∧
        ((∃ err : ApiErrorInfo, e = ⟨err.message, err.code⟩ ∧
            (({} : ResponseBody).error = some err ∨
              (bodyEnvelope ({} : ResponseBody)).error = some err)) ∨
          e.code = "SERVER_ERROR" ∨ e.code = "UNKNOWN") :=
  ⟨(request_envelope_unwrapping ⟨200, "OK", true, { data := some "payload" }⟩).1
      rfl rfl rfl,
    (request_envelope_unwrapping ⟨500, "Server Error", false, {}⟩).2
      (Or.inr (Or.inr rfl))⟩

/-- A retried call never retries again: `requestStep` with
`isRetry = true` always resolves the response in place. -/
theorem requestStep_retry_terminates (refreshOk : Bool) (res : Response) :
    requestStep true refreshOk res ≠ StepOutcome.retry := by
  unfold requestStep
  simp

/-- C9 counterexample: a 401 whose refresh succeeds but whose retried
request is again a JSON 401 carrying an error envelope does not throw
`ApiError("Session expired", "AUTH_EXPIRED")` and does not clear the
stored tokens — the envelope's own error is thrown instead. -/
theorem retried_401_not_auth_expired :
    (request true
        ⟨401, "Unauthorized", true, { error := some ⟨"Not authenticated", "HTTP_401"⟩ }⟩
        ⟨401, "Unauthorized", true, { error := some ⟨"Not authenticated", "HTTP_401"⟩ }⟩).1 =
      Except.error ⟨"Not authenticated", "HTTP_401"⟩ ∧
    (request true
        ⟨401, "Unauthorized", true, { error := some ⟨"Not authenticated", "HTTP_401"⟩ }⟩
        ⟨401, "Unauthorized", true, { error := some ⟨"Not authenticated", "HTTP_401"⟩ }⟩).1 ≠
      Except.error ⟨"Session expired", "AUTH_EXPIRED"⟩ ∧
    (request true
        ⟨401, "Unauthorized", true, { error := some ⟨"Not authenticated", "HTTP_401"⟩ }⟩
        ⟨401, "Unauthorized", true, { error := some ⟨"Not authenticated", "HTTP_401"⟩ }⟩).2 =
      false := by
  refine ⟨rfl, fun h => ?_, rfl⟩
  rw [show (request true
        ⟨401, "Unauthorized", true, { error := some ⟨"Not authenticated", "HTTP_401"⟩ }⟩
        ⟨401, "Unauthorized", true, { error := some ⟨"Not authenticated", "HTTP_401"⟩ }⟩).1 =
      Except.error ⟨"Not authenticated", "HTTP_401"⟩ from rfl] at h
  injection h with h2
  injection h2 with hmsg hcode
  exact absurd hmsg (by decide)

/-- C9 (amended): a 401 on the original request triggers at most one
refresh-and-retry. If the refresh fails, tokens are cleared and
`ApiError("Session expired", "AUTH_EXPIRED")` is thrown; if the refresh
succeeds, the retried response — even another 401 — is processed by the
ordinary envelope logic without clearing tokens, and no further retry
occurs, so the recursion terminates. -/
theorem auth_retry_at_most_once (refreshOk : Bool) (res1 res2 : Response)
    (h401 : res1.status = 401) :
    (refreshOk = false →
      request refreshOk res1 res2 =
        (Except.error ⟨"Session expired", "AUTH_EXPIRED"⟩, true)) ∧
    (refreshOk = true →
      request refreshOk res1 res2 = (processResponse res2, false)) ∧
    requestStep true refreshOk res2 ≠ StepOutcome.retry := by
  refine ⟨fun hrf => ?_, fun hrf => ?_, requestStep_retry_terminates refreshOk res2⟩
  · subst hrf
    unfold request requestStep
    simp [h401]
  · subst hrf
    unfold request requestStep
    simp [h401]

/-- Witness for C9 (amended) at a concrete failed refresh. -/
theorem auth_retry_at_most_once_witness :
    request false ⟨401, "Unauthorized", true, {}⟩ ⟨200, "OK", true, {}⟩ =
      (Except.error ⟨"Session expired", "AUTH_EXPIRED"⟩, true) :=
  (auth_retry_at_most_once false ⟨401, "Unauthorized", true, {}⟩
      ⟨200, "OK", true, {}⟩ rfl).1 rfl

end DocPilot

namespace DocPilot

/-! ## Comparison engine (spec §4.4)

Modelled from the spec: the Comparison Engine is backend code that is
not present under `src/` (only its result types in
`types/comparison.ts` and its callers are). The definitions below
follow §4.4 of the spec literally: the field diff is computed over the
union of the two documents' field names by exact value equality, with a
null field value counting as present-with-null; the clause diff groups
each document's clauses by clause type into shared / only_in_a /
only_in_b, recording both sides' risk level and plain summary for
shared types. -/

/-- A clause as the engine consumes it: its type tag, and its (possibly
absent) risk level and plain-language summary. -/
structure EngineClause where
  clause_type : String
  risk_level : Option String
  plain_summary : Option String
deriving DecidableEq, Repr

/-- A completed document's snapshot as the engine reads it: the field
mapping (field name to nullable value, a key nominally expected but
null being present-with-null) and the clause list. -/
structure EngineDoc where
  fields : List (String × Option String)
  clauses : List EngineClause
deriving DecidableEq, Repr

/-- Field lookup: `none` when the key is entirely missing from the
mapping, `some v` (with `v` possibly null) when present. -/
def lookupField (d : EngineDoc) (k : String) : Option (Option String) :=
  d.fields.lookup k

/-- One field diff entry as the engine produces it (the shape of
`FieldDiffEntry` with engine values, which are nullable). -/
structure EngineFieldEntry where
  status : DiffStatus
  value : Option (Option String) := none
  doc_a : Option (Option String) := none
  doc_b : Option (Option String) := none
deriving DecidableEq, Repr

/-- The diff entry for one field name given both documents' lookups:
present in both and equal → match with the shared value; present in
both and different → different with both values; present in only one →
only_in_a / only_in_b; in neither → no entry. -/
def diffEntry (va vb : Option (Option String)) : Option EngineFieldEntry :=
  match va, vb with
  | some a, some b =>
    if a = b then some { status := DiffStatus.match_, value := some a }
    else some { status := DiffStatus.different, doc_a := some a, doc_b := some b }
  | some a, none => some { status := DiffStatus.only_in_a, doc_a := some a }
  | none, some b => some { status := DiffStatus.only_in_b, doc_b := some b }
  | none, none => none

/-- The field diff of two documents, as the mapping from field name to
optional diff entry: names outside the union of the two key sets map to
no entry. -/
def fieldDiff (A B : EngineDoc) (k : String) : Option EngineFieldEntry :=
  diffEntry (lookupField A k) (lookupField B k)

/-- Swapping the two sides of a field diff entry: match and different
keep their statuses (different swaps its values), only_in_a and
only_in_b are exchanged. -/
def swapEntry (e : EngineFieldEntry) : EngineFieldEntry :=
  match e.status with
  | DiffStatus.match_ => e
  | DiffStatus.different => { e with doc_a := e.doc_b, doc_b := e.doc_a }
  | DiffStatus.only_in_a => { status := DiffStatus.only_in_b, doc_b := e.doc_a }
  | DiffStatus.only_in_b => { status := DiffStatus.only_in_a, doc_a := e.doc_b }

/-- The distinct clause types of a document's clause set, in order of
first appearance. -/
def clauseTypes (d : EngineDoc) : List String :=
  (d.clauses.map (fun c => c.clause_type)).dedup

/-- The risk level a document records for a clause type (null when no
clause of that type carries one). -/
def riskOf (d : EngineDoc) (t : String) : Option String :=
  (d.clauses.find? (fun c => c.clause_type == t)).bind (fun c => c.risk_level)

/-- The plain summary a document records for a clause type. -/
def summaryOf (d : EngineDoc) (t : String) : Option String :=
  (d.clauses.find? (fun c => c.clause_type == t)).bind (fun c => c.plain_summary)

/-- Clause types present in both documents' clause sets. -/
def sharedTypes (A B : EngineDoc) : List String :=
  (clauseTypes A).filter (fun t => (clauseTypes B).contains t)

/-- Clause types present only in A's clause set. -/
def clausesOnlyInA (A B : EngineDoc) : List String :=
  (clauseTypes A).filter (fun t => !(clauseTypes B).contains t)

/-- Clause types present only in B's clause set. -/
def clausesOnlyInB (A B : EngineDoc) : List String :=
  (clauseTypes B).filter (fun t => !(clauseTypes A).contains t)

/-- A shared clause diff item (`ClauseDiffItem` of `types/comparison.ts`):
both sides' risk level and summary for one shared clause type. -/
structure ClauseDiffItem where
  clause_type : String
  risk_a : Option String := none
  risk_b : Option String := none
  summary_a : Option String := none
  summary_b : Option String := none
deriving DecidableEq, Repr

/-- The shared clause diff entry for one clause type. -/
def sharedItem (A B : EngineDoc) (t : String) : ClauseDiffItem :=
  { clause_type := t, risk_a := riskOf A t, risk_b := riskOf B t,
    summary_a := summaryOf A t, summary_b := summaryOf B t }

/-- Swapping the A and B sides of a shared clause diff item. -/
def swapClauseItem (i : ClauseDiffItem) : ClauseDiffItem :=
  { i with risk_a := i.risk_b, risk_b := i.risk_a, summary_a := i.summary_b, summary_b := i.summary_a }

/-- C5: comparison symmetry. Comparing (B, A) produces, for every field
name, the side-swapped entry of comparing (A, B) — match and different
statuses are preserved, only_in_a and only_in_b exchanged; the clause
diff's only_in_a and only_in_b lists are exchanged; the shared clause
types coincide and each shared entry swaps its A-side and B-side risk
and summary values. -/
theorem comparison_symmetry (A B : EngineDoc) :
    (∀ k : String, fieldDiff B A k = (fieldDiff A B k).map swapEntry) ∧
    clausesOnlyInA B A = clausesOnlyInB A B ∧
    clausesOnlyInB B A = clausesOnlyInA A B ∧
    (∀ t : String, t ∈ sharedTypes B A ↔ t ∈ sharedTypes A B) ∧
    (∀ t : String, sharedItem B A t = swapClauseItem (sharedItem A B t)) := by
  refine ⟨fun k => ?_, rfl, rfl, fun t => ?_, fun t => rfl⟩
  · unfold fieldDiff diffEntry
    cases ha : lookupField A k with
    | none =>
      cases hb : lookupField B k with
      | none => rfl
      | some b => rfl
    | some a =>
      cases hb : lookupField B k with
      | none => rfl
      | some b =>
        by_cases hab : a = b
        · subst hab
          simp [swapEntry]
        · have hba : ¬ b = a := fun h => hab h.symm
          simp [hab, hba, swapEntry]
  · unfold sharedTypes
    simp only [List.mem_filter, List.contains, List.elem_eq_mem, decide_eq_true_eq]
    exact and_comm

end DocPilot

namespace DocPilot

/-! ## Pipeline progress protocol (spec §3, §4.1, §8)

Modelled from the spec: the Pipeline Orchestrator and Progress Channel
are backend code not present under `src/`. Following §4.1: `start`
publishes a first ProgressEvent (step 1/N, "starting"), then the stage
loop publishes one event per successful stage with an advancing step
index and an evenly spaced monotonic percentage reaching 100 on the
last stage; a stage failure publishes one final event carrying the
failure sentinel (-1) and stops the run. A run is abstracted by the
list of its stage outcomes (`true` = success); the published event
sequence is a function of that list. -/

/-- Record `ProgressEvent` of spec §3: 1-based step index, total steps,
message, and percentage (0–100, or the failure sentinel -1). -/
structure ProgressEvent where
  step : Nat
  total_steps : Nat
  message : String
  progress : Int
deriving DecidableEq, Repr

/-- A terminal event: percentage 100 (completed) or the failure
sentinel -1 (failed). -/
def isTerminalEvent (e : ProgressEvent) : Bool :=
  e.progress == 100 || e.progress == -1

/-- The first event published by `start`: step 1/N, "starting", 0%. -/
def startEvent (n : Nat) : ProgressEvent :=
  { step := 1, total_steps := n, message := "starting", progress := 0 }

/-- Evenly spaced percentage after stage `i` of `n`. -/
def stagePercent (n i : Nat) : Int :=
  ((i * 100) / n : Nat)

/-- The event published after stage `i` of `n` succeeds. -/
def stageEvent (n i : Nat) : ProgressEvent :=
  { step := i, total_steps := n, message := "stage complete", progress := stagePercent n i }

/-- The final event published when stage `i` of `n` fails: it carries
the failure sentinel. -/
def failEvent (n i : Nat) : ProgressEvent :=
  { step := i, total_steps := n, message := "stage failed", progress := -1 }

/-- The events published by the stage loop from stage `i` on, given the
remaining stage outcomes: each success publishes its stage event and
continues; a failure publishes the sentinel event and stops the run. -/
def stageEvents (n : Nat) : Nat → List Bool → List ProgressEvent
  | _, [] => []
  | i, true :: rest => stageEvent n i :: stageEvents n (i + 1) rest
  | i, false :: _ => [failEvent n i]

/-- The whole event sequence one job publishes (and hence the sequence
any one subscriber observes, §5 ordering guarantee): the starting event
followed by the stage loop's events. -/
def jobEvents (results : List Bool) : List ProgressEvent :=
  startEvent results.length :: stageEvents results.length 1 results

/-- A successful stage event strictly before the last stage is not
terminal. -/
theorem stageEvent_not_terminal (n i : Nat) (hn : 0 < n) (hi : i < n) :
    isTerminalEvent (stageEvent n i) = false := by
  have hlt : (i * 100) / n < 100 := by
    rw [Nat.div_lt_iff_lt_mul hn]
    omega
  unfold isTerminalEvent stageEvent stagePercent
  simp only [Bool.or_eq_false_iff, beq_eq_false_iff_ne]
  refine ⟨fun hcontr => ?_, fun hcontr => ?_⟩
  · have hnat : (i * 100) / n = 100 := by exact_mod_cast hcontr
    omega
  · have h0 : (0 : Int) ≤ (((i * 100) / n : Nat) : Int) := Int.natCast_nonneg _
    rw [hcontr] at h0
    exact absurd h0 (by decide)

/-- The stage event of the last stage carries percentage 100 and is
terminal. -/
theorem stageEvent_last_terminal (n : Nat) (hn : 0 < n) :
    isTerminalEvent (stageEvent n n) = true := by
  unfold isTerminalEvent stageEvent stagePercent
  rw [Nat.mul_div_cancel_left 100 hn]
  rfl

/-- Structure of the stage loop's event list covering stages `i` to `n`:
its head carries step `i`, its steps are non-decreasing, and it contains
exactly one terminal event, which is its last element. -/
theorem stageEvents_spec (n : Nat) (rs : List Bool) :
    ∀ i : Nat, 0 < i → i + rs.length = n + 1 → rs ≠ [] →
      (∃ e0 : ProgressEvent, (stageEvents n i rs).head? = some e0 ∧ e0.step = i) ∧
      List.Chain' (fun a b => a.step ≤ b.step) (stageEvents n i rs) ∧
      (stageEvents n i rs).countP (fun e => isTerminalEvent e) = 1 ∧
      (∃ (front : List ProgressEvent) (e : ProgressEvent),
        stageEvents n i rs = front ++ [e] ∧ isTerminalEvent e = true) := by
  induction rs with
  | nil => intro i _ _ hne; exact absurd rfl hne
  | cons ok rest ih =>
    intro i hi hlen _
    have hn : 0 < n := by simp at hlen; omega
    cases ok with
    | false =>
      exact ⟨⟨_, rfl, rfl⟩, List.chain'_singleton _, rfl, [], _, rfl, rfl⟩
    | true =>
      cases rest with
      | nil =>
        have hin : i = n := by simp at hlen; omega
        have hterm : isTerminalEvent (stageEvent n i) = true := by
          rw [hin]
          exact stageEvent_last_terminal n hn
        refine ⟨⟨_, rfl, rfl⟩, List.chain'_singleton _, ?_, [], _, rfl, hterm⟩
        rw [show stageEvents n i [true] = [stageEvent n i] from rfl]
        simp [List.countP_cons, hterm]
      | cons r rest2 =>
        have hlen2 : (i + 1) + (r :: rest2).length = n + 1 := by
          simp at hlen ⊢
          omega
        have hi2 : i < n := by simp at hlen; omega
        obtain ⟨⟨e0, he0, hstep0⟩, hchain, hcount, front, elast, heq, hterm⟩ :=
          ih (i + 1) (by omega) hlen2 (by simp)
        have hnt := stageEvent_not_terminal n i hn hi2
        have hunf : stageEvents n i (true :: r :: rest2) =
            stageEvent n i :: stageEvents n (i + 1) (r :: rest2) := rfl
        refine ⟨⟨_, rfl, rfl⟩, ?_, ?_, ?_⟩
        · rw [hunf, List.chain'_cons']
          refine ⟨fun b hb => ?_, hchain⟩
          rw [he0] at hb
          simp only [Option.mem_def, Option.some.injEq] at hb
          subst hb
          rw [hstep0]
          show i ≤ i + 1
          omega
        · rw [hunf, List.countP_cons, hcount, hnt]
          rfl
        · refine ⟨stageEvent n i :: front, elast, ?_, hterm⟩
          rw [hunf, heq]
          rfl

/-- C6: for every job run, the published ProgressEvent sequence — as
observed in order by any one subscriber — has non-decreasing step
indices and contains exactly one terminal event (100% completed or the
failure sentinel), which is its final element, after which no further
event is published. -/
theorem progress_events_monotone_single_terminal (results : List Bool)
    (h : 0 < results.length) :
    List.Chain' (fun a b => a.step ≤ b.step) (jobEvents results) ∧
    (jobEvents results).countP (fun e => isTerminalEvent e) = 1 ∧
    (∃ (front : List ProgressEvent) (e : ProgressEvent),
      jobEvents results = front ++ [e] ∧ isTerminalEvent e = true) := by
  have hne : results ≠ [] := by
    intro hcontr
    rw [hcontr] at h
    exact absurd h (by decide)
  obtain ⟨⟨e0, he0, hstep0⟩, hchain, hcount, front, elast, heq, hterm⟩ :=
    stageEvents_spec results.length results 1 (by omega) (by omega) hne
  refine ⟨?_, ?_, ?_⟩
  · unfold jobEvents
    rw [List.chain'_cons']
    refine ⟨fun b hb => ?_, hchain⟩
    rw [he0] at hb
    simp only [Option.mem_def, Option.some.injEq] at hb
    subst hb
    rw [hstep0]
    show 1 ≤ 1
    omega
  · unfold jobEvents
    rw [List.countP_cons, hcount]
    rfl
  · refine ⟨startEvent results.length :: front, elast, ?_, hterm⟩
    unfold jobEvents
    rw [heq]
    rfl

/-- Witness for C6 on a concrete three-stage run whose second stage
fails. -/
theorem progress_events_monotone_single_terminal_witness :
    0 < ([true, false, true] : List Bool).length ∧
    ((jobEvents [true, false, true]).countP (fun e => isTerminalEvent e) = 1) :=
  ⟨by decide,
    (progress_events_monotone_single_terminal [true, false, true] (by decide)).2.1⟩

end DocPilot
